import Mathlib

/-!
Shallow embedding of the ec2-proxy device registry (pi-discovery service)
and its request-forwarding gateway (server request handlers), together with
proofs about the registry's behaviour.

The `PIDiscovery` class keeps its devices in a JavaScript `Map` keyed by
device id; we model that map as an insertion-ordered association list with
the `Map` operations (`get`, `set`, `delete`, `has`, `values`).  Wall-clock
reads (`new Date().toISOString()`, `Date.now()` differences) are passed in
as explicit parameters, and every outbound HTTP call is resolved through an
explicit environment mapping the target address to the call's outcome.
-/

namespace EC2Proxy

/-- One device record.  The JavaScript objects built by the service come in
two shapes (discovery-created records carry `version`/`storage`/`uptime`,
registration-created records carry `location`/`description`/`addedAt`);
optional fields model keys that may be absent from the object. -/
structure Device where
  id : String
  ip : String
  name : String
  location : Option String := none
  description : Option String := none
  status : String
  lastSeen : String
  addedAt : Option String := none
  version : Option String := none
  storage : Option (List (String × String)) := none
  uptime : Option Nat := none
  deriving Repr, DecidableEq

/-- The in-memory device table: a JavaScript `Map` from device id to record,
modelled as an insertion-ordered association list with unique keys. -/
abbrev Store := List (String × Device)

/-- `Map.get`: the first (and, with unique keys, only) entry with this key. -/
def Store.get : Store → String → Option Device
  | [], _ => none
  | p :: rest, k => if p.1 = k then some p.2 else Store.get rest k

/-- `Map.set`: replace the value at an existing key in place, otherwise
append a new entry at the end (JavaScript `Map` insertion order). -/
def Store.set : Store → String → Device → Store
  | [], k, d => [(k, d)]
  | p :: rest, k, d => if p.1 = k then (k, d) :: rest else p :: Store.set rest k d

/-- `Map.delete` (as observed through the table): drop the entry with this key. -/
def Store.del (s : Store) (k : String) : Store :=
  s.filter (fun p => p.1 ≠ k)

/-- `Map.has`. -/
def Store.has (s : Store) (k : String) : Bool :=
  (s.get k).isSome

/-- `Array.from(map.values())`. -/
def Store.values (s : Store) : List Device :=
  s.map Prod.snd

/-- JavaScript `a || b` on an optional string: an absent or empty (falsy)
string falls back to the default. -/
def strOr (o : Option String) (dflt : String) : String :=
  match o with
  | some s => if s = "" then dflt else s
  | none => dflt

/-- `ip.replace(/\./g, '-')`: dots become dashes when deriving a device id
from an address. -/
def dashify (ip : String) : String :=
  ip.map (fun c => if c = '.' then '-' else c)

/-! ### Store lemmas -/

theorem Store.get_set (s : Store) (k : String) (d : Device) (i : String) :
    (s.set k d).get i = if i = k then some d else s.get i := by
  induction s with
  | nil =>
    by_cases h : i = k
    · simp [Store.set, Store.get, h]
    · simp [Store.set, Store.get, h, Ne.symm h]
  | cons p rest ih =>
    by_cases hp : p.1 = k
    · by_cases h : i = k
      · simp [Store.set, Store.get, hp, h]
      · have hpi : ¬ p.1 = i := by rw [hp]; exact Ne.symm h
        simp [Store.set, Store.get, hp, h, Ne.symm h, hpi]
    · by_cases h2 : p.1 = i
      · have hik : ¬ i = k := fun hx => hp (h2.trans hx)
        simp [Store.set, Store.get, hp, h2, hik]
      · simp [Store.set, Store.get, hp, h2, ih]

theorem Store.has_set (s : Store) (k : String) (d : Device) (i : String) :
    (s.set k d).has i = (decide (i = k) || s.has i) := by
  by_cases h : i = k <;> simp [Store.has, Store.get_set, h]

theorem Store.get_del (s : Store) (k : String) (i : String) :
    (s.del k).get i = if i = k then none else s.get i := by
  induction s with
  | nil => simp [Store.del, Store.get]
  | cons p rest ih =>
    by_cases hp : p.1 = k
    · by_cases h : i = k
      · simpa [Store.del, List.filter_cons, hp, h] using ih
      · have hpi : ¬ p.1 = i := by rw [hp]; exact Ne.symm h
        simp [Store.del, List.filter_cons, hp, h, hpi, Ne.symm h, Store.get] at ih ⊢
        exact ih
    · by_cases h2 : p.1 = i
      · have hik : ¬ i = k := fun hx => hp (h2.trans hx)
        simp [Store.del, List.filter_cons, hp, h2, hik, Store.get]
      · simp [Store.del, List.filter_cons, hp, h2, Store.get] at ih ⊢
        exact ih

/-! ### PIDiscovery store operations (pi-discovery service)

Each mutating method mutates the in-memory `Map` first and then
`await`s `savePIs()`; `savePIs` itself has no try/catch, so a failed
durable write turns into a rejected promise of the calling method.
`persistOk` is the outcome of that durable write, `saves` counts the
`savePIs()` calls the operation makes, and a rejected promise is the
`Except.error` result. -/

/-- Outcome of one store operation: the in-memory table afterwards, the
operation's settled promise, and how many `savePIs()` calls it made. -/
structure OpOut (α : Type) where
  store : Store
  result : Except String α
  saves : Nat
  deriving Repr

/-- `updatePIStatus(piId, status)`: if the id is known, set `status`, stamp
`lastSeen` with the current time, persist, and resolve with the record;
otherwise resolve with `null` (not-found) without touching anything. -/
def updatePIStatus (s : Store) (piId status now : String) (persistOk : Bool) :
    OpOut (Option Device) :=
  match s.get piId with
  | some pi =>
    let pi2 := { pi with status := status, lastSeen := now }
    { store := s.set piId pi2,
      result := if persistOk then .ok (some pi2) else .error "persist failed",
      saves := 1 }
  | none => { store := s, result := .ok none, saves := 0 }

/-- `removePI(piId)`: delete a known id and persist, resolving `true`;
resolve `false` on an unknown id without persisting. -/
def removePI (s : Store) (piId : String) (persistOk : Bool) : OpOut Bool :=
  if s.has piId then
    { store := s.del piId,
      result := if persistOk then .ok true else .error "persist failed",
      saves := 1 }
  else { store := s, result := .ok false, saves := 0 }

/-- Input object of `registerPI(piData)`. -/
structure RegData where
  id : Option String := none
  ip : String
  name : Option String := none
  location : Option String := none
  description : Option String := none

/-- `registerPI(piData)`: build a `pending` record (id defaulting to
`pi-` plus the dashed address, name to a sequence-numbered placeholder),
insert it, persist, and resolve with the record. -/
def registerPI (s : Store) (rd : RegData) (now : String) (persistOk : Bool) :
    OpOut Device :=
  let pi : Device := {
    id := strOr rd.id ("pi-" ++ dashify rd.ip),
    ip := rd.ip,
    name := strOr rd.name ("Music Player " ++ toString (s.length + 1)),
    location := some (strOr rd.location "Unknown"),
    description := some (strOr rd.description ""),
    status := "pending",
    lastSeen := now,
    addedAt := some now }
  { store := s.set pi.id pi,
    result := if persistOk then .ok pi else .error "persist failed",
    saves := 1 }

/-- Body of a device's health response (`response.data` of the probe). -/
structure HealthData where
  success : Bool
  hostname : Option String := none
  version : Option String := none
  storage : Option (List (String × String)) := none
  uptime : Option Nat := none
  deriving Repr, DecidableEq

/-- Outcome of one health probe (`axios.get` on the device's health
endpoint): a 2xx response with its body, or a rejection (timeout,
connection error, or a non-2xx status, which axios also rejects). -/
inductive ProbeResult where
  | ok (data : HealthData)
  | err (msg : String)

/-- The failure branch of a discovery probe: find the first known device
with the probed address and, only if it was `online`, flip it to `offline`
and stamp `lastSeen`; otherwise leave the table untouched. -/
def offlineFirstByIp (now ip : String) : Store → Store
  | [] => []
  | p :: rest =>
    if p.2.ip = ip then
      (if p.2.status = "online" then
        (p.1, { p.2 with status := "offline", lastSeen := now }) :: rest
      else p :: rest)
    else p :: offlineFirstByIp now ip rest

/-- One candidate address of `discoverPis`: on a successful probe whose
body has a truthy `success` flag, upsert an `online` record keyed by the
address-derived id, capturing self-reported metadata; on a rejected probe,
apply the offline transition above.  The accumulator carries the table and
the `discovered` list. -/
def discoverStep (env : String → ProbeResult) (now : String) :
    Store × List Device → String → Store × List Device
  | (s, disc), ip =>
    match env ip with
    | .ok data =>
      if data.success then
        let piInfo : Device := {
          id := "pi-" ++ dashify ip,
          ip := ip,
          name := strOr data.hostname ("Music Player " ++ toString (s.length + 1)),
          status := "online",
          lastSeen := now,
          version := some (strOr data.version "unknown"),
          storage := some (data.storage.getD []),
          uptime := some (data.uptime.getD 0) }
        (s.set piInfo.id piInfo, disc ++ [piInfo])
      else (s, disc)
    | .err _ => (offlineFirstByIp now ip s, disc)

/-- Outcome of a discovery sweep. -/
structure SweepOut where
  store : Store
  discovered : List Device
  saves : Nat

/-- `discoverPis()`: probe every candidate address in order and persist at
the end — but only when at least one device was discovered
(`if (discovered.length > 0) await this.savePIs()`). -/
def discoverPis (s : Store) (candidates : List String)
    (env : String → ProbeResult) (now : String) : SweepOut :=
  let out := candidates.foldl (discoverStep env now) (s, [])
  { store := out.1, discovered := out.2,
    saves := if out.2 = [] then 0 else 1 }

/-- One entry of the result list `healthCheck()` builds per device. -/
structure HCEntry where
  piId : String
  ip : String
  name : String
  status : String
  response : Option HealthData := none
  error : Option String := none
  checkTime : String
  deriving Repr, DecidableEq

/-- The loop body of `healthCheck()`: walk the table's entries in order,
probe each device's address, record an `online` or `offline` entry, and
`await updatePIStatus(...)`.  A failed persistence write inside the `try`
lands in the same `catch` (pushing a second, `offline` entry and updating
again), and a failed write in the `catch` rejects the whole sweep, losing
the collected entries. -/
def hcGo (env : String → ProbeResult) (now : String) (persistOk : Bool) :
    List (String × Device) → Store → Store × Except String (List HCEntry)
  | [], s => (s, .ok [])
  | (k, pi) :: rest, s =>
    match env pi.ip with
    | .ok data =>
      let u := updatePIStatus s k "online" now persistOk
      match u.result with
      | .ok _ =>
        let e : HCEntry := { piId := k, ip := pi.ip, name := pi.name,
                             status := "online", response := some data,
                             checkTime := now }
        match hcGo env now persistOk rest u.store with
        | (s2, .ok es) => (s2, .ok (e :: es))
        | (s2, .error m) => (s2, .error m)
      | .error m =>
        let u2 := updatePIStatus u.store k "offline" now persistOk
        (u2.store, .error m)
    | .err msg =>
      let u := updatePIStatus s k "offline" now persistOk
      match u.result with
      | .ok _ =>
        let e : HCEntry := { piId := k, ip := pi.ip, name := pi.name,
                             status := "offline", error := some msg,
                             checkTime := now }
        match hcGo env now persistOk rest u.store with
        | (s2, .ok es) => (s2, .ok (e :: es))
        | (s2, .error m) => (s2, .error m)
      | .error m => (u.store, .error m)

/-- `healthCheck()`: probe every known device and report per-device
results (the iteration walks the entries the table held at the start). -/
def healthCheck (s : Store) (env : String → ProbeResult) (now : String)
    (persistOk : Bool) : Store × Except String (List HCEntry) :=
  hcGo env now persistOk s s

/-! ### Persisted snapshot (savePIs / loadPIs)

`savePIs` writes `JSON.stringify({ pis: Object.fromEntries(this.pis),
lastUpdated })`; `loadPIs` rebuilds the map with
`new Map(Object.entries(config.pis || {}))`.  The JSON value space the
registry actually serializes (string fields, the numeric `uptime`, the
boolean `success`-style flags, and the flat `storage` metadata object) is
modelled by `JVal`; `JSON.parse` of `JSON.stringify` is the identity on
such values, so the model works on the structured document. -/

/-- A JSON value as used by the registry's records. -/
inductive JVal where
  | jstr : String → JVal
  | jnum : Nat → JVal
  | jbool : Bool → JVal
  | jmap : List (String × String) → JVal
  deriving Repr, DecidableEq

/-- A key that is present only when the record carries the field. -/
def optEntry (k : String) : Option JVal → List (String × JVal)
  | some v => [(k, v)]
  | none => []

/-- The JSON object a `Device` record serializes to. -/
def encodeDevice (d : Device) : List (String × JVal) :=
  [("id", .jstr d.id), ("ip", .jstr d.ip), ("name", .jstr d.name)]
  ++ optEntry "location" (d.location.map JVal.jstr)
  ++ optEntry "description" (d.description.map JVal.jstr)
  ++ [("status", .jstr d.status), ("lastSeen", .jstr d.lastSeen)]
  ++ optEntry "addedAt" (d.addedAt.map JVal.jstr)
  ++ optEntry "version" (d.version.map JVal.jstr)
  ++ optEntry "storage" (d.storage.map JVal.jmap)
  ++ optEntry "uptime" (d.uptime.map JVal.jnum)

/-- Read a string field back from a serialized record. -/
def jGetStr (fs : List (String × JVal)) (k : String) : Option String :=
  match fs.lookup k with
  | some (.jstr s) => some s
  | _ => none

/-- Read the numeric field back. -/
def jGetNum (fs : List (String × JVal)) (k : String) : Option Nat :=
  match fs.lookup k with
  | some (.jnum n) => some n
  | _ => none

/-- Read the metadata-object field back. -/
def jGetMap (fs : List (String × JVal)) (k : String) :
    Option (List (String × String)) :=
  match fs.lookup k with
  | some (.jmap m) => some m
  | _ => none

/-- Rebuild a `Device` from its serialized object. -/
def decodeDevice (fs : List (String × JVal)) : Option Device :=
  match jGetStr fs "id", jGetStr fs "ip", jGetStr fs "name",
        jGetStr fs "status", jGetStr fs "lastSeen" with
  | some i, some a, some n, some st, some ls =>
    some { id := i, ip := a, name := n, status := st, lastSeen := ls,
           location := jGetStr fs "location",
           description := jGetStr fs "description",
           addedAt := jGetStr fs "addedAt",
           version := jGetStr fs "version",
           storage := jGetMap fs "storage",
           uptime := jGetNum fs "uptime" }
  | _, _, _, _, _ => none

/-- The persisted document: the id-to-record mapping plus `lastUpdated`. -/
structure SavedConfig where
  pis : List (String × List (String × JVal))
  lastUpdated : String

/-- `savePIs()`: serialize the table into the persisted document. -/
def saveStore (s : Store) (now : String) : SavedConfig :=
  { pis := s.map (fun p => (p.1, encodeDevice p.2)), lastUpdated := now }

/-- Rebuilding the map entries from the persisted document. -/
def loadEntries : List (String × List (String × JVal)) → Option Store
  | [] => some []
  | p :: rest =>
    match decodeDevice p.2, loadEntries rest with
    | some d, some s => some ((p.1, d) :: s)
    | _, _ => none

/-- `loadPIs()` applied to a previously saved document. -/
def loadStore (c : SavedConfig) : Option Store :=
  loadEntries c.pis

/-! ### Forwarding gateway (server request handlers)

`proxyToPi(piId, endpoint, method, data)` resolves the device, issues an
`axios` request with a 5s timeout, and settles the store's status from the
outcome.  `axios` is configured with its default `validateStatus`, so the
promise resolves only for a 2xx status; a non-2xx response rejects with the
response attached (`error.response`), and a timeout or connection error
rejects with no response.  The status-update call inside `proxyToPi` is not
awaited, so its persistence outcome never reaches `proxyToPi`'s caller. -/

/-- Outcome of the outbound `axios` call, keyed by the target address:
either the device answered at the HTTP level (any status code, with its
body), or the transport failed. -/
inductive AxiosOutcome where
  | response (status : Nat) (body : String)
  | netError (msg : String)

/-- axios's default `validateStatus`: resolve only 2xx. -/
def is2xx (st : Nat) : Bool := 200 ≤ st && st < 300

/-- The objects `proxyToPi` returns (both the success and failure shapes). -/
structure ProxyResult where
  success : Bool
  data : Option String := none
  error : Option String := none
  piName : String
  piId : String
  piIp : String
  responseTime : Nat
  details : Option String := none
  deriving Repr, DecidableEq

/-- Result of one `proxyToPi` call: its settled promise (a thrown
`Invalid Pi ID` is the rejection), the store afterwards, and how many
outbound network calls were attempted. -/
structure FwdOut where
  result : Except String ProxyResult
  store : Store
  netCalls : Nat

/-- `proxyToPi`: unknown id → throw before any network call; 2xx → mark
online and pass the body through as `data`; any rejection (non-2xx or
transport error) → mark offline and return a structured failure whose
`details` is the response body when one exists (`error.response?.data ||
'Connection failed'`).  `rt` is the measured elapsed time. -/
def proxyToPi (s : Store) (piId : String) (net : String → AxiosOutcome)
    (now : String) (rt : Nat) : FwdOut :=
  match s.get piId with
  | none => { result := .error ("Invalid Pi ID: " ++ piId), store := s, netCalls := 0 }
  | some pi =>
    match net pi.ip with
    | .response st body =>
      if is2xx st then
        { result := .ok { success := true, data := some body, piName := pi.name,
                          piId := piId, piIp := pi.ip, responseTime := rt },
          store := (updatePIStatus s piId "online" now true).store,
          netCalls := 1 }
      else
        { result := .ok { success := false,
                          error := some ("Request failed with status code " ++ toString st),
                          piName := pi.name, piId := piId, piIp := pi.ip,
                          responseTime := rt,
                          details := some (strOr (some body) "Connection failed") },
          store := (updatePIStatus s piId "offline" now true).store,
          netCalls := 1 }
    | .netError msg =>
      { result := .ok { success := false, error := some msg,
                        piName := pi.name, piId := piId, piIp := pi.ip,
                        responseTime := rt,
                        details := some "Connection failed" },
        store := (updatePIStatus s piId "offline" now true).store,
        netCalls := 1 }

/-- One element of the `players` array of the bulk status endpoint:
`{ piId, ...result }` on a settled call, `{ piId, success: false, error }`
on a rejected one. -/
structure StatusEntry where
  piId : String
  success : Bool
  error : Option String := none
  data : Option String := none
  piName : Option String := none
  piIp : Option String := none
  responseTime : Option Nat := none
  details : Option String := none
  deriving Repr, DecidableEq

/-- One mapped element of the bulk status handler. -/
def allStatusEntry (s : Store) (net : String → AxiosOutcome) (now : String)
    (rt : Nat) (piId : String) : StatusEntry :=
  match (proxyToPi s piId net now rt).result with
  | .ok r => { piId := piId, success := r.success, error := r.error,
               data := r.data, piName := some r.piName, piIp := some r.piIp,
               responseTime := some r.responseTime, details := r.details }
  | .error m => { piId := piId, success := false, error := some m }

/-- The bulk status handler: `const pis = piDiscovery.getAllPIs()` is the
ARRAY of device records, and the handler maps `Object.keys(pis)` — the
array's indices `"0"`, `"1"`, … — into `proxyToPi`, each call reading the
shared table it started from. -/
def allStatus (s : Store) (net : String → AxiosOutcome) (now : String)
    (rt : Nat) : List StatusEntry :=
  (List.range s.length).map (fun i => allStatusEntry s net now rt (toString i))

/-- Whether the device at this address answers the probe with a 2xx. -/
def reachable (net : String → AxiosOutcome) (ip : String) : Bool :=
  match net ip with
  | .response st _ => is2xx st
  | .netError _ => false

/-- One element of the public players list: the handler runs
`Object.entries(pis)` over the ARRAY `getAllPIs()` returns, so `id` is the
array index; the other fields are read from the record, plus the derived
`available` flag.  The element is modelled as the literal JavaScript
object (its key/value pairs). -/
def playerEntry (idx : Nat) (d : Device) : List (String × JVal) :=
  [("id", .jstr (toString idx)),
   ("name", .jstr d.name),
   ("location", .jstr (strOr d.location "Unknown")),
   ("status", .jstr d.status),
   ("lastSeen", .jstr d.lastSeen),
   ("available", .jbool (d.status = "online"))]

/-- The mapped players array, indexed from `idx`. -/
def playersFrom (idx : Nat) : List Device → List (List (String × JVal))
  | [] => []
  | d :: rest => playerEntry idx d :: playersFrom (idx + 1) rest

/-- The public list-players handler body. -/
def listPlayers (s : Store) : List (List (String × JVal)) :=
  playersFrom 0 s.values

/-! ### Supporting lemmas -/

theorem updatePIStatus_get (s : Store) (pid st t : String) (p : Bool) (pi : Device)
    (h : s.get pid = some pi) (i : String) :
    (updatePIStatus s pid st t p).store.get i =
      if i = pid then some { pi with status := st, lastSeen := t } else s.get i := by
  simp [updatePIStatus, h, Store.get_set]

theorem updatePIStatus_has_eq (s : Store) (pid st t : String) (p : Bool) (i : String) :
    (updatePIStatus s pid st t p).store.has i = s.has i := by
  cases hg : s.get pid with
  | none => simp [updatePIStatus, hg]
  | some pi =>
    simp only [updatePIStatus, hg, Store.has_set]
    by_cases h : i = pid
    · subst h
      simp [Store.has, hg]
    · simp [h]

theorem offlineFirstByIp_has (now ip : String) (s : Store) (i : String) :
    Store.has (offlineFirstByIp now ip s) i = Store.has s i := by
  induction s with
  | nil => rfl
  | cons p rest ih =>
    simp only [offlineFirstByIp]
    by_cases hip : p.2.ip = ip
    · by_cases hst : p.2.status = "online"
      · by_cases h : p.1 = i <;> simp [hip, hst, Store.has, Store.get, h]
      · simp [hip, hst]
    · by_cases h : p.1 = i
      · simp [hip, Store.has, Store.get, h]
      · simpa [hip, Store.has, Store.get, h] using ih

theorem offlineFirstByIp_of_absent (now ip : String) (s : Store)
    (h : ∀ p ∈ s, p.2.ip ≠ ip) : offlineFirstByIp now ip s = s := by
  induction s with
  | nil => rfl
  | cons p rest ih =>
    have hp : p.2.ip ≠ ip := h p (List.mem_cons_self p rest)
    have hrest : ∀ q ∈ rest, q.2.ip ≠ ip := fun q hq => h q (List.mem_cons_of_mem p hq)
    simp [offlineFirstByIp, hp, ih hrest]

theorem discoverStep_has (env : String → ProbeResult) (now : String)
    (acc : Store × List Device) (ip i : String) (h : acc.1.has i = true) :
    ((discoverStep env now acc ip).1).has i = true := by
  obtain ⟨s, disc⟩ := acc
  simp only [discoverStep]
  cases env ip with
  | ok data =>
    by_cases hs : data.success = true
    · simp [hs, Store.has_set, h]
    · simpa [hs] using h
  | err m => simpa [offlineFirstByIp_has] using h

theorem discoverFold_has (env : String → ProbeResult) (now : String)
    (cands : List String) :
    ∀ (acc : Store × List Device) (i : String), acc.1.has i = true →
      ((cands.foldl (discoverStep env now) acc).1).has i = true := by
  induction cands with
  | nil => intro acc i h; exact h
  | cons c cs ih =>
    intro acc i h
    exact ih _ i (discoverStep_has env now acc c i h)

theorem hcGo_has_eq (env : String → ProbeResult) (now : String) (p : Bool)
    (l : List (String × Device)) :
    ∀ (s : Store) (i : String), ((hcGo env now p l s).1).has i = s.has i := by
  induction l with
  | nil => intro s i; rfl
  | cons kp rest ih =>
    intro s i
    obtain ⟨k, pi⟩ := kp
    cases henv : env pi.ip with
    | ok data =>
      simp only [hcGo, henv]
      cases hres : (updatePIStatus s k "online" now p).result with
      | ok v =>
        simp only [hres]
        cases hrec : hcGo env now p rest (updatePIStatus s k "online" now p).store with
        | mk s2 r2 =>
          have h2 : s2.has i = s.has i := by
            have h3 := ih (updatePIStatus s k "online" now p).store i
            rw [hrec] at h3
            simpa [updatePIStatus_has_eq] using h3
          cases r2 <;> simpa using h2
      | error m =>
        simp only [hres, updatePIStatus_has_eq]
    | err m =>
      simp only [hcGo, henv]
      cases hres : (updatePIStatus s k "offline" now p).result with
      | ok v =>
        simp only [hres]
        cases hrec : hcGo env now p rest (updatePIStatus s k "offline" now p).store with
        | mk s2 r2 =>
          have h2 : s2.has i = s.has i := by
            have h3 := ih (updatePIStatus s k "offline" now p).store i
            rw [hrec] at h3
            simpa [updatePIStatus_has_eq] using h3
          cases r2 <;> simpa using h2
      | error m2 =>
        simp only [hres, updatePIStatus_has_eq]

set_option maxHeartbeats 2000000 in
theorem decode_encode (d : Device) : decodeDevice (encodeDevice d) = some d := by
  obtain ⟨i, a, n, lo, de, st, ls, aa, ve, sg, up⟩ := d
  cases lo <;> cases de <;> cases aa <;> cases ve <;> cases sg <;> cases up <;>
    simp [decodeDevice, encodeDevice, optEntry, jGetStr, jGetNum, jGetMap,
      List.lookup]

theorem loadEntries_map (s : Store) :
    loadEntries (s.map (fun p => (p.1, encodeDevice p.2))) = some s := by
  induction s with
  | nil => rfl
  | cons p rest ih =>
    simp [loadEntries, decode_encode, ih]

/-! ### Concrete fixtures for the concrete-input theorems -/

/-- A discovery-shaped online device at the first seeded candidate address. -/
def piA : Device :=
  { id := "pi-100-104-127-38", ip := "100.104.127.38",
    name := "Music Player 1", status := "online",
    lastSeen := "2025-01-01T00:00:00.000Z" }

/-- `piA` with a different address and otherwise identical fields. -/
def piB : Device := { piA with ip := "100.99.99.99" }

/-- A one-device table holding `piA`. -/
def storeA : Store := [(piA.id, piA)]

/-- A one-device table holding `piB` under the same id. -/
def storeB : Store := [(piA.id, piB)]

/-- A network where every address answers 200 with body `ok`. -/
def netOk : String → AxiosOutcome := fun _ => .response 200 "ok"

/-- A network where every address answers 500 with body `boom`. -/
def net500 : String → AxiosOutcome := fun _ => .response 500 "boom"

/-- A network where every request times out. -/
def netDown : String → AxiosOutcome := fun _ => .netError "timeout of 5000ms exceeded"

/-- A probe environment where every candidate times out. -/
def envDown : String → ProbeResult := fun _ => .err "timeout of 3000ms exceeded"

/-! ### Claim C1 -/

/-- Claim C1 counterexample: the device at the known id answers the forward
at the HTTP level with status 500, yet `proxyToPi` returns a structured
failure (`success: false`, the device's body in `details`) and the store's
record transitions to `offline` — refuting the claim that a non-2xx
response is passed through as a success and leaves the status alone. -/
theorem claim_C1_counterexample :
    (proxyToPi storeA "pi-100-104-127-38" net500 "2025-01-01T00:01:00.000Z" 7).result =
      .ok { success := false,
            error := some "Request failed with status code 500",
            piName := "Music Player 1", piId := "pi-100-104-127-38",
            piIp := "100.104.127.38", responseTime := 7,
            details := some "boom" }
    ∧ (((proxyToPi storeA "pi-100-104-127-38" net500 "2025-01-01T00:01:00.000Z" 7).store.get
          "pi-100-104-127-38").map Device.status) = some "offline" := by
  exact ⟨rfl, rfl⟩

/-- Claim C1 as amended: a non-2xx HTTP response from the device is treated
exactly like a transport failure — `proxyToPi` returns a structured failure
carrying the device's body as `details` and sets the device `offline`
(axios's default `validateStatus` rejects any non-2xx status); one network
call is attempted. -/
theorem claim_C1_amended (s : Store) (piId : String) (pi : Device) (st : Nat)
    (body : String) (net : String → AxiosOutcome) (now : String) (rt : Nat)
    (hpi : s.get piId = some pi) (hnet : net pi.ip = .response st body)
    (hst : is2xx st = false) :
    (proxyToPi s piId net now rt).result =
      .ok { success := false,
            error := some ("Request failed with status code " ++ toString st),
            piName := pi.name, piId := piId, piIp := pi.ip, responseTime := rt,
            details := some (strOr (some body) "Connection failed") }
    ∧ (((proxyToPi s piId net now rt).store.get piId).map Device.status) = some "offline"
    ∧ (proxyToPi s piId net now rt).netCalls = 1 := by
  have hupd := updatePIStatus_get s piId "offline" now true pi hpi piId
  refine ⟨?_, ?_, ?_⟩ <;> simp [proxyToPi, hpi, hnet, hst, hupd]

/-- Claim C1 witness: the amended statement at the concrete 500-response
network. -/
theorem claim_C1_witness :
    (proxyToPi storeA "pi-100-104-127-38" net500 "2025-01-01T00:01:00.000Z" 7).result =
      .ok { success := false,
            error := some ("Request failed with status code " ++ toString 500),
            piName := piA.name, piId := "pi-100-104-127-38", piIp := piA.ip,
            responseTime := 7,
            details := some (strOr (some "boom") "Connection failed") }
    ∧ (((proxyToPi storeA "pi-100-104-127-38" net500 "2025-01-01T00:01:00.000Z" 7).store.get
          "pi-100-104-127-38").map Device.status) = some "offline"
    ∧ (proxyToPi storeA "pi-100-104-127-38" net500 "2025-01-01T00:01:00.000Z" 7).netCalls = 1 :=
  claim_C1_amended storeA "pi-100-104-127-38" piA 500 "boom" net500
    "2025-01-01T00:01:00.000Z" 7 rfl rfl rfl

/-! ### Claim C3 -/

/-- Claim C3: after `updatePIStatus(id, 'offline')` at time `t` on a
registered id, the stored record reads back with status `offline` and
`lastSeen` equal to `t`; on an absent id the call resolves with the
not-found `null` and the table is untouched. -/
theorem claim_C3_setStatus (s : Store) (id t : String) (persistOk : Bool) :
    (∀ pi, s.get id = some pi →
      (((updatePIStatus s id "offline" t persistOk).store.get id).map Device.status)
          = some "offline"
      ∧ (((updatePIStatus s id "offline" t persistOk).store.get id).map Device.lastSeen)
          = some t)
    ∧ (s.get id = none →
      (updatePIStatus s id "offline" t persistOk).store = s
      ∧ (updatePIStatus s id "offline" t persistOk).result = .ok none) := by
  constructor
  · intro pi hpi
    have h := updatePIStatus_get s id "offline" t persistOk pi hpi id
    simp [h]
  · intro hnone
    simp [updatePIStatus, hnone]

/-- Claim C3 witness: the statement at the concrete one-device table,
once on its registered id and once on an unknown id. -/
theorem claim_C3_witness :
    ((((updatePIStatus storeA "pi-100-104-127-38" "offline" "2025-01-02T00:00:00.000Z" true).store.get
          "pi-100-104-127-38").map Device.status) = some "offline"
      ∧ (((updatePIStatus storeA "pi-100-104-127-38" "offline" "2025-01-02T00:00:00.000Z" true).store.get
          "pi-100-104-127-38").map Device.lastSeen) = some "2025-01-02T00:00:00.000Z")
    ∧ ((updatePIStatus storeA "nope" "offline" "2025-01-02T00:00:00.000Z" true).store = storeA
      ∧ (updatePIStatus storeA "nope" "offline" "2025-01-02T00:00:00.000Z" true).result = .ok none) :=
  ⟨(claim_C3_setStatus storeA "pi-100-104-127-38" "2025-01-02T00:00:00.000Z" true).1 piA rfl,
   (claim_C3_setStatus storeA "nope" "2025-01-02T00:00:00.000Z" true).2 rfl⟩

/-! ### Claim C4 -/

/-- Claim C4 counterexample: a failed durable write during a status update
leaves the in-memory mutation in place (`lastSeen` advanced), but the
operation's promise rejects — the persistence failure DOES propagate to the
caller of the triggering operation, refuting the claim's no-propagation
half. -/
theorem claim_C4_counterexample :
    (updatePIStatus storeA "pi-100-104-127-38" "online" "2025-01-03T00:00:00.000Z" false).result
        = .error "persist failed"
    ∧ (((updatePIStatus storeA "pi-100-104-127-38" "online" "2025-01-03T00:00:00.000Z" false).store.get
          "pi-100-104-127-38").map Device.lastSeen) = some "2025-01-03T00:00:00.000Z" := by
  exact ⟨rfl, rfl⟩

/-- Claim C4 as amended: a failure of the durable persistence write never
undoes the in-memory mutation (the table keeps the update), but it does
propagate to the caller: the status update, the removal and the
registration each reject when `savePIs()` fails, after the table was
already mutated. -/
theorem claim_C4_amended :
    (∀ (s : Store) (id st t : String) (pi : Device), s.get id = some pi →
      (updatePIStatus s id st t false).store.get id
          = some { pi with status := st, lastSeen := t }
      ∧ (updatePIStatus s id st t false).result = .error "persist failed")
    ∧ (∀ (s : Store) (id : String), s.has id = true →
      (removePI s id false).store = s.del id
      ∧ (removePI s id false).result = .error "persist failed")
    ∧ (∀ (s : Store) (rd : RegData) (now : String),
      (registerPI s rd now false).store.has (strOr rd.id ("pi-" ++ dashify rd.ip)) = true
      ∧ (registerPI s rd now false).result = .error "persist failed") := by
  refine ⟨?_, ?_, ?_⟩
  · intro s id st t pi hpi
    constructor
    · have h := updatePIStatus_get s id st t false pi hpi id
      simpa using h
    · simp [updatePIStatus, hpi]
  · intro s id h
    constructor
    · simp [removePI, h]
    · simp [removePI, h]
  · intro s rd now
    constructor
    · simp [registerPI, Store.has_set]
    · simp [registerPI]

/-- Claim C4 witness: the amended statement at the concrete table, for the
status update, the removal, and a fresh registration. -/
theorem claim_C4_witness :
    ((updatePIStatus storeA "pi-100-104-127-38" "offline" "2025-01-03T00:00:00.000Z" false).store.get
          "pi-100-104-127-38"
        = some { piA with status := "offline", lastSeen := "2025-01-03T00:00:00.000Z" }
      ∧ (updatePIStatus storeA "pi-100-104-127-38" "offline" "2025-01-03T00:00:00.000Z" false).result
        = .error "persist failed")
    ∧ ((removePI storeA "pi-100-104-127-38" false).store = storeA.del "pi-100-104-127-38"
      ∧ (removePI storeA "pi-100-104-127-38" false).result = .error "persist failed")
    ∧ ((registerPI storeA { ip := "100.114.175.61" } "2025-01-03T00:00:00.000Z" false).store.has
          (strOr ({ ip := "100.114.175.61" } : RegData).id ("pi-" ++ dashify "100.114.175.61")) = true
      ∧ (registerPI storeA { ip := "100.114.175.61" } "2025-01-03T00:00:00.000Z" false).result
        = .error "persist failed") :=
  ⟨claim_C4_amended.1 storeA "pi-100-104-127-38" "offline" "2025-01-03T00:00:00.000Z" piA rfl,
   claim_C4_amended.2.1 storeA "pi-100-104-127-38" rfl,
   claim_C4_amended.2.2 storeA { ip := "100.114.175.61" } "2025-01-03T00:00:00.000Z"⟩

/-! ### Claim C5 -/

/-- Claim C5 counterexample: a discovery sweep in which the single
candidate times out flips the existing online device to `offline` — an
in-memory mutation — yet makes no `savePIs()` call, because `discoverPis`
persists only when `discovered.length > 0`.  This refutes the claim that
every mutating store operation triggers a persistence write. -/
theorem claim_C5_counterexample :
    (discoverPis storeA ["100.104.127.38"] envDown "2025-01-04T00:00:00.000Z").store =
      [("pi-100-104-127-38",
        { piA with status := "offline", lastSeen := "2025-01-04T00:00:00.000Z" })]
    ∧ (discoverPis storeA ["100.104.127.38"] envDown "2025-01-04T00:00:00.000Z").saves = 0 := by
  exact ⟨rfl, rfl⟩

/-- Claim C5 as amended: the status update (on a present id), the
registration and the removal (of a present id) each trigger exactly one
persistence write, but a discovery sweep persists only when it discovered
at least one device — an offline transition made by a sweep that
discovered nothing is not persisted. -/
theorem claim_C5_amended :
    (∀ (s : Store) (id st t : String) (pi : Device) (p : Bool), s.get id = some pi →
        (updatePIStatus s id st t p).saves = 1)
    ∧ (∀ (s : Store) (rd : RegData) (now : String) (p : Bool),
        (registerPI s rd now p).saves = 1)
    ∧ (∀ (s : Store) (id : String) (p : Bool), s.has id = true →
        (removePI s id p).saves = 1)
    ∧ (∀ (s : Store) (cands : List String) (env : String → ProbeResult) (now : String),
        (discoverPis s cands env now).saves =
          if (discoverPis s cands env now).discovered = [] then 0 else 1) := by
  refine ⟨?_, ?_, ?_, ?_⟩
  · intro s id st t pi p hpi
    simp [updatePIStatus, hpi]
  · intro s rd now p
    simp [registerPI]
  · intro s id p h
    simp [removePI, h]
  · intro s cands env now
    simp [discoverPis]

/-- Claim C5 witness: the amended statement at the concrete table; the
sweep instance is the one from the counterexample, where nothing was
discovered and nothing was saved. -/
theorem claim_C5_witness :
    (updatePIStatus storeA "pi-100-104-127-38" "offline" "2025-01-04T00:00:00.000Z" true).saves = 1
    ∧ (registerPI storeA { ip := "100.114.175.61" } "2025-01-04T00:00:00.000Z" true).saves = 1
    ∧ (removePI storeA "pi-100-104-127-38" true).saves = 1
    ∧ (discoverPis storeA ["100.104.127.38"] envDown "2025-01-04T00:00:00.000Z").saves =
        (if (discoverPis storeA ["100.104.127.38"] envDown "2025-01-04T00:00:00.000Z").discovered = []
         then 0 else 1) :=
  ⟨claim_C5_amended.1 storeA "pi-100-104-127-38" "offline" "2025-01-04T00:00:00.000Z" piA true rfl,
   claim_C5_amended.2.1 storeA { ip := "100.114.175.61" } "2025-01-04T00:00:00.000Z" true,
   claim_C5_amended.2.2.1 storeA "pi-100-104-127-38" true rfl,
   claim_C5_amended.2.2.2 storeA ["100.104.127.38"] envDown "2025-01-04T00:00:00.000Z"⟩

/-! ### Claim C6 -/

/-- Claim C6: forwarding to an id absent from the store throws the
`Invalid Pi ID` rejection before any outbound call — zero network calls,
table untouched — and that rejection is distinguishable from the
unreachable-device outcome, which is a RESOLVED structured failure
(`success: false`) produced after one attempted network call. -/
theorem claim_C6_forward_notfound (s : Store) (piId : String)
    (net : String → AxiosOutcome) (now : String) (rt : Nat)
    (h : s.get piId = none) :
    ((proxyToPi s piId net now rt).result = .error ("Invalid Pi ID: " ++ piId)
      ∧ (proxyToPi s piId net now rt).netCalls = 0
      ∧ (proxyToPi s piId net now rt).store = s)
    ∧ (∀ (pid2 : String) (pi : Device) (msg : String),
        s.get pid2 = some pi → net pi.ip = .netError msg →
        (proxyToPi s pid2 net now rt).result =
          .ok { success := false, error := some msg, piName := pi.name,
                piId := pid2, piIp := pi.ip, responseTime := rt,
                details := some "Connection failed" }
        ∧ (proxyToPi s pid2 net now rt).netCalls = 1) := by
  constructor
  · refine ⟨?_, ?_, ?_⟩ <;> simp [proxyToPi, h]
  · intro pid2 pi msg h2 hn
    constructor <;> simp [proxyToPi, h2, hn]

/-- Claim C6 witness: the statement on the concrete table with the
all-timeout network, at the unknown id `nope` and at the registered id. -/
theorem claim_C6_witness :
    ((proxyToPi storeA "nope" netDown "2025-01-05T00:00:00.000Z" 3).result
        = .error ("Invalid Pi ID: " ++ "nope")
      ∧ (proxyToPi storeA "nope" netDown "2025-01-05T00:00:00.000Z" 3).netCalls = 0
      ∧ (proxyToPi storeA "nope" netDown "2025-01-05T00:00:00.000Z" 3).store = storeA)
    ∧ ((proxyToPi storeA "pi-100-104-127-38" netDown "2025-01-05T00:00:00.000Z" 3).result =
        .ok { success := false, error := some "timeout of 5000ms exceeded",
              piName := piA.name, piId := "pi-100-104-127-38", piIp := piA.ip,
              responseTime := 3, details := some "Connection failed" }
      ∧ (proxyToPi storeA "pi-100-104-127-38" netDown "2025-01-05T00:00:00.000Z" 3).netCalls = 1) :=
  ⟨(claim_C6_forward_notfound storeA "nope" netDown "2025-01-05T00:00:00.000Z" 3 rfl).1,
   (claim_C6_forward_notfound storeA "nope" netDown "2025-01-05T00:00:00.000Z" 3 rfl).2
     "pi-100-104-127-38" piA "timeout of 5000ms exceeded" rfl rfl⟩

/-! ### Claim C7 -/

/-- Claim C7: a candidate address whose probe fails during a discovery
sweep, when no device in the table has that address, changes nothing: the
per-candidate step returns its accumulator unchanged, and a whole sweep of
failing candidates none of which matches a stored address leaves the table
unchanged, discovers nothing and persists nothing. -/
theorem claim_C7_sweep_frame (now : String) (env : String → ProbeResult) :
    (∀ (s : Store) (disc : List Device) (ip msg : String),
        env ip = .err msg → (∀ p ∈ s, p.2.ip ≠ ip) →
        discoverStep env now (s, disc) ip = (s, disc))
    ∧ (∀ (s : Store) (cands : List String),
        (∀ c ∈ cands, ∃ m, env c = .err m) →
        (∀ p ∈ s, ∀ c ∈ cands, p.2.ip ≠ c) →
        (discoverPis s cands env now).store = s
        ∧ (discoverPis s cands env now).discovered = []
        ∧ (discoverPis s cands env now).saves = 0) := by
  have hstep : ∀ (s : Store) (disc : List Device) (ip msg : String),
      env ip = .err msg → (∀ p ∈ s, p.2.ip ≠ ip) →
      discoverStep env now (s, disc) ip = (s, disc) := by
    intro s disc ip msg he hip
    simp [discoverStep, he, offlineFirstByIp_of_absent now ip s hip]
  refine ⟨hstep, ?_⟩
  intro s cands hfail habs
  have hfold : ∀ (cs : List String), (∀ c ∈ cs, ∃ m, env c = .err m) →
      (∀ p ∈ s, ∀ c ∈ cs, p.2.ip ≠ c) →
      cs.foldl (discoverStep env now) (s, []) = (s, []) := by
    intro cs
    induction cs with
    | nil => intro _ _; rfl
    | cons c cs2 ih =>
      intro h1 h2
      obtain ⟨m, hm⟩ := h1 c (List.mem_cons_self c cs2)
      have hone := hstep s [] c m hm (fun p hp => h2 p hp c (List.mem_cons_self c cs2))
      rw [List.foldl_cons, hone]
      exact ih (fun x hx => h1 x (List.mem_cons_of_mem c hx))
        (fun p hp x hx => h2 p hp x (List.mem_cons_of_mem c hx))
  have h0 := hfold cands hfail habs
  refine ⟨?_, ?_, ?_⟩ <;> simp [discoverPis, h0]

/-- Claim C7 witness: the statement at a concrete table whose only device
sits at a different address than the single failing candidate. -/
theorem claim_C7_witness :
    (discoverStep envDown "2025-01-06T00:00:00.000Z" (storeA, []) "100.114.175.61"
        = (storeA, []))
    ∧ ((discoverPis storeA ["100.114.175.61"] envDown "2025-01-06T00:00:00.000Z").store = storeA
      ∧ (discoverPis storeA ["100.114.175.61"] envDown "2025-01-06T00:00:00.000Z").discovered = []
      ∧ (discoverPis storeA ["100.114.175.61"] envDown "2025-01-06T00:00:00.000Z").saves = 0) :=
  ⟨(claim_C7_sweep_frame "2025-01-06T00:00:00.000Z" envDown).1 storeA []
      "100.114.175.61" "timeout of 3000ms exceeded" rfl (by decide),
   (claim_C7_sweep_frame "2025-01-06T00:00:00.000Z" envDown).2 storeA ["100.114.175.61"]
      (fun c _ => ⟨"timeout of 3000ms exceeded", rfl⟩) (by decide)⟩

/-! ### Claim C8 -/

/-- Claim C8: saving the table into the persisted snapshot document and
loading it back is lossless — every device record round-trips with
identical values in every field, timestamps included, for a table of any
size. -/
theorem claim_C8_roundtrip (s : Store) (now : String) :
    loadStore (saveStore s now) = some s :=
  loadEntries_map s

/-! ### Claim C9 -/

/-- Claim C9 counterexample: the players-list entry for a concrete device
carries a sixth key, the derived `available` flag, beyond the five fields
the claim allows — so the output is not limited to id, name, location,
status and lastSeen. -/
theorem claim_C9_counterexample :
    (listPlayers storeA).map (fun e => e.map Prod.fst) =
      [["id", "name", "location", "status", "lastSeen", "available"]]
    ∧ "available" ∉ ["id", "name", "location", "status", "lastSeen"] := by
  exact ⟨rfl, by decide⟩

/-- Helper for claim C9: every players-list entry has exactly the six keys
id, name, location, status, lastSeen, available — in particular the
device's address is never among them. -/
theorem playersFrom_keys (l : List Device) :
    ∀ (idx : Nat), ∀ e ∈ playersFrom idx l, e.map Prod.fst =
      ["id", "name", "location", "status", "lastSeen", "available"] := by
  induction l with
  | nil =>
    intro idx e he
    simp [playersFrom] at he
  | cons d rest ih =>
    intro idx e he
    rcases List.mem_cons.1 he with heq | hmem
    · subst heq; rfl
    · exact ih (idx + 1) e hmem

/-- Helper for claim C9: the players list depends only on each device's
name, location, status and lastSeen. -/
theorem playersFrom_congr (l1 : List Device) :
    ∀ (l2 : List Device),
      l1.map (fun d => (d.name, d.location, d.status, d.lastSeen)) =
        l2.map (fun d => (d.name, d.location, d.status, d.lastSeen)) →
      ∀ (idx : Nat), playersFrom idx l1 = playersFrom idx l2 := by
  induction l1 with
  | nil =>
    intro l2 h idx
    cases l2 with
    | nil => rfl
    | cons b bs => simp at h
  | cons a as ih =>
    intro l2 h idx
    cases l2 with
    | nil => simp at h
    | cons b bs =>
      simp only [List.map_cons, List.cons.injEq, Prod.mk.injEq] at h
      obtain ⟨⟨hn, hl, hs, hls⟩, htail⟩ := h
      have hab : playerEntry idx a = playerEntry idx b := by
        simp [playerEntry, hn, hl, hs, hls]
      simp [playersFrom, hab, ih bs htail (idx + 1)]

/-- Claim C9 as amended: the non-admin players list returns for each device
exactly id, name, location, status, lastSeen and the derived boolean
`available` (status equals online); the network address is never among the
keys, and two tables agreeing per-device on name, location, status and
lastSeen — in particular differing only in a device's address — produce
identical output. -/
theorem claim_C9_amended (s1 s2 : Store)
    (h : s1.values.map (fun d => (d.name, d.location, d.status, d.lastSeen)) =
         s2.values.map (fun d => (d.name, d.location, d.status, d.lastSeen))) :
    listPlayers s1 = listPlayers s2
    ∧ (∀ e ∈ listPlayers s1, e.map Prod.fst =
        ["id", "name", "location", "status", "lastSeen", "available"]) :=
  ⟨playersFrom_congr s1.values s2.values h 0,
   playersFrom_keys s1.values 0⟩

/-- Claim C9 witness: the amended statement at two concrete one-device
tables that differ only in the device's address. -/
theorem claim_C9_witness :
    listPlayers storeA = listPlayers storeB
    ∧ (∀ e ∈ listPlayers storeA, e.map Prod.fst =
        ["id", "name", "location", "status", "lastSeen", "available"]) :=
  claim_C9_amended storeA storeB rfl

/-! ### Claim C10 -/

/-- Claim C10: no probe or status operation ever deletes a device — a
discovery sweep, a health-check sweep (whatever the persistence outcome)
and a status update preserve every id present before — and `removePI` is
the only shrinking operation, removing exactly the requested id. -/
theorem claim_C10_no_deletion :
    (∀ (s : Store) (cands : List String) (env : String → ProbeResult)
        (now i : String), s.has i = true →
        (discoverPis s cands env now).store.has i = true)
    ∧ (∀ (s : Store) (env : String → ProbeResult) (now : String) (p : Bool)
        (i : String), s.has i = true →
        ((healthCheck s env now p).1).has i = true)
    ∧ (∀ (s : Store) (pid st t : String) (p : Bool) (i : String),
        s.has i = true → (updatePIStatus s pid st t p).store.has i = true)
    ∧ (∀ (s : Store) (pid : String) (p : Bool) (i : String),
        (removePI s pid p).store.has i = (if i = pid then false else s.has i)) := by
  refine ⟨?_, ?_, ?_, ?_⟩
  · intro s cands env now i h
    simpa [discoverPis] using discoverFold_has env now cands (s, []) i h
  · intro s env now p i h
    simpa [healthCheck, hcGo_has_eq] using h
  · intro s pid st t p i h
    simpa [updatePIStatus_has_eq] using h
  · intro s pid p i
    by_cases hp : s.has pid = true
    · have hp2 : (s.get pid).isSome = true := hp
      by_cases h : i = pid <;> simp [removePI, Store.has, hp2, Store.get_del, h]
    · have hp2 : (s.get pid).isSome = false := by
        simpa [Store.has] using hp
      by_cases h : i = pid
      · subst h; simp [removePI, Store.has, hp2]
      · simp [removePI, Store.has, hp2, h]

/-- Claim C10 witness: the statement at the concrete one-device table: a
timed-out sweep, a timed-out health check, a status update and a removal. -/
theorem claim_C10_witness :
    (discoverPis storeA ["100.104.127.38"] envDown "2025-01-07T00:00:00.000Z").store.has
        "pi-100-104-127-38" = true
    ∧ ((healthCheck storeA envDown "2025-01-07T00:00:00.000Z" true).1).has
        "pi-100-104-127-38" = true
    ∧ (updatePIStatus storeA "pi-100-104-127-38" "offline" "2025-01-07T00:00:00.000Z" true).store.has
        "pi-100-104-127-38" = true
    ∧ (removePI storeA "pi-100-104-127-38" true).store.has "pi-100-104-127-38" =
        (if "pi-100-104-127-38" = "pi-100-104-127-38" then false
         else storeA.has "pi-100-104-127-38") :=
  ⟨claim_C10_no_deletion.1 storeA ["100.104.127.38"] envDown "2025-01-07T00:00:00.000Z"
      "pi-100-104-127-38" rfl,
   claim_C10_no_deletion.2.1 storeA envDown "2025-01-07T00:00:00.000Z" true
      "pi-100-104-127-38" rfl,
   claim_C10_no_deletion.2.2.1 storeA "pi-100-104-127-38" "offline"
      "2025-01-07T00:00:00.000Z" true "pi-100-104-127-38" rfl,
   claim_C10_no_deletion.2.2.2 storeA "pi-100-104-127-38" true "pi-100-104-127-38"⟩

/-! ### Claim C2 -/

/-- Claim C2, the code evaluated at the failing input: one registered and
fully reachable device (every address answers 200).  The bulk status
handler still returns its single result marked unsuccessful with the error
`Invalid Pi ID: 0`, because it maps `Object.keys` over the ARRAY that
`getAllPIs()` returns and so forwards to the array index `0` instead of
the device id.  The claim expects M = 1 successful results; the code
yields 0. -/
theorem claim_C2_bug_eval :
    storeA.length = 1
    ∧ reachable netOk piA.ip = true
    ∧ allStatus storeA netOk "2025-01-08T00:00:00.000Z" 5 =
        [{ piId := "0", success := false, error := some "Invalid Pi ID: 0" }]
    ∧ ((allStatus storeA netOk "2025-01-08T00:00:00.000Z" 5).filter
        (fun e => e.success)).length = 0 := by
  refine ⟨rfl, rfl, ?_, ?_⟩ <;> rfl

end EC2Proxy
